import Mathlib

/-!
Shallow embedding of the layout-document core of `LUL_Layout_Manager.py`:
grid snapping, draggable widgets, selection, the undo/redo stacks of
`GUIBuilder`, save/load of the JSON document format, and Python source
generation.  The Tk toolkit behaviour the program relies on (per-class
option tables, `config`/`cget`/`keys`, `destroy`, and
`canvas.create_window` failing on a destroyed widget) is modelled by a
small widget-state record; everything else is translated directly from
the source file.
-/

namespace LUL

/-- `GRID_SIZE = 20` (source line 27). -/
def GRID_SIZE : Int := 20

/-- `round(v / GRID_SIZE) * GRID_SIZE` (source lines 116-117 and 592-593).
Python's `round` rounds half to even; for an integer `v`, `v / 20` has an
exactly representable tie, so the result is the exact
round-half-to-even of `v / 20`, implemented here with euclidean
division: `q = v // 20`, `r = v mod 20 ∈ [0, 20)`. -/
def snap (v : Int) : Int :=
  if v % 20 < 10 then 20 * (v / 20)
  else if 10 < v % 20 then 20 * (v / 20 + 1)
  else if (v / 20) % 2 = 0 then 20 * (v / 20) else 20 * (v / 20 + 1)

/-- Tk option-name aliasing: plain-tk widget classes accept `bg` / `fg`
as abbreviations of `background` / `foreground` (modelled from Tk; the
source reads `cget('bg')` at line 745 but writes `config(background=...)`
on load). -/
def normKey (k : String) : String :=
  if k = "bg" then "background" else if k = "fg" then "foreground" else k

/-- Model of one Tk widget object's state: which options its class
supports (restricted to the options this program ever touches), their
current values, whether the plain-tk aliases appear in `keys()`, and
whether the widget has been destroyed. -/
structure TkWidget where
  tkBased : Bool
  validKeys : List String
  cfg : List (String × String)
  alive : Bool
deriving DecidableEq

/-- `widget.cget(k)`: current value of an option (unset options read as
the empty default in this model). -/
def TkWidget.cget (w : TkWidget) (k : String) : String :=
  (w.cfg.lookup (normKey k)).getD ""

/-- `k in widget.keys()`: a canonical option name is listed when the
class supports it; the `bg`/`fg` abbreviations are listed only for
plain-tk classes. -/
def TkWidget.hasKey (w : TkWidget) (k : String) : Bool :=
  w.validKeys.contains (normKey k) && (k == normKey k || w.tkBased)

/-- `widget.config({k: v})`: fails (raises `TclError`, modelled as
`none`) on a destroyed widget or an unsupported option. -/
def TkWidget.config1 (w : TkWidget) (k v : String) : Option TkWidget :=
  if w.alive && w.validKeys.contains (normKey k) then
    some { w with cfg := (normKey k, v) :: w.cfg }
  else none

/-- `widget.destroy()`: the widget and all its option state are gone. -/
def TkWidget.destroy (w : TkWidget) : TkWidget :=
  { w with alive := false, cfg := [] }

/-- helper for the ttk-class branches of `place_widget`. -/
def ttkW (ks : List String) (cfg : List (String × String)) : TkWidget :=
  { tkBased := false, validKeys := ks, cfg := cfg, alive := true }

/-- helper for the plain-tk-class branches of `place_widget`. -/
def tkW (ks : List String) (cfg : List (String × String)) : TkWidget :=
  { tkBased := true, validKeys := ks, cfg := cfg, alive := true }

/-- The widget-construction chain of `GUIBuilder.place_widget` (source
lines 598-627): each supported type yields a freshly constructed Tk
widget with the constructor arguments used there; an unknown type leaves
`widget = None`.  The option tables are modelled from Tk/ttk,
restricted to the options this program touches. -/
def makeWidget (t : String) : Option TkWidget :=
  if t = "Button" then some (ttkW ["text", "width", "command"] [("text", "Button")])
  else if t = "Label" then
    some (ttkW ["text", "width", "background", "foreground", "font"] [("text", "Label")])
  else if t = "Entry" then some (ttkW ["width", "show", "font"] [])
  else if t = "Text" then
    some (tkW ["width", "height", "background", "foreground", "font", "wrap"]
      [("width", "30"), ("height", "5")])
  else if t = "Checkbutton" then some (ttkW ["text", "width", "command"] [("text", "Checkbutton")])
  else if t = "Radiobutton" then some (ttkW ["text", "width", "command"] [("text", "Radiobutton")])
  else if t = "Scale" then
    some (ttkW ["from", "to", "length", "command"] [("from", "0"), ("to", "100")])
  else if t = "Listbox" then
    some (tkW ["width", "height", "background", "foreground", "font"] [("height", "4")])
  else if t = "Scrollbar" then some (ttkW ["command"] [])
  else if t = "Frame" then
    some (ttkW ["width", "height", "relief"]
      [("width", "200"), ("height", "200"), ("relief", "ridge")])
  else if t = "LabelFrame" then
    some (ttkW ["text", "width", "height"]
      [("text", "LabelFrame"), ("width", "200"), ("height", "200")])
  else if t = "Combobox" then
    some (ttkW ["width", "values"] [("values", "Option 1 Option 2 Option 3")])
  else if t = "Progressbar" then
    some (ttkW ["length", "mode", "value"]
      [("length", "200"), ("mode", "determinate"), ("value", "50")])
  else none

/-- `DraggableWidget` (source lines 44-174): the Python-side state of
one placed widget.  `widget` is the referenced Tk widget object,
`onCanvas` models whether its canvas window item currently exists. -/
structure DW where
  widget : TkWidget
  widget_type : String
  x : Int
  y : Int
  properties : List (String × String)
  selected : Bool
  original_x : Int
  original_y : Int
  start_x : Int
  start_y : Int
  onCanvas : Bool
deriving DecidableEq

/-- Undo/redo entries as pushed by the source: `('create', dw)`,
`('delete', dw)`, `('move', dw, old_x, old_y)`.  Python stores live
object references; the embedding stores indices into an arena of
`DW` records, which models that aliasing exactly. -/
inductive Action where
  | create (r : Nat)
  | delete (r : Nat)
  | move (r : Nat) (old_x old_y : Int)
deriving DecidableEq

/-- `GUIBuilder` state (source lines 330-335).  `arena` holds every
`DraggableWidget` object ever constructed (index = object identity);
`widgets` is `self.widgets`, the live z-ordered list of references.
The stacks are kept most-recent-first (Python appends/pops at the
right end; the orientation is a representation choice only). -/
structure Builder where
  arena : List DW
  widgets : List Nat
  active_widget : Option String
  undo_stack : List Action
  redo_stack : List Action
deriving DecidableEq

def dummyTk : TkWidget :=
  { tkBased := false, validKeys := [], cfg := [], alive := false }

def dummyDW : DW :=
  { widget := dummyTk, widget_type := "", x := 0, y := 0, properties := [],
    selected := false, original_x := 0, original_y := 0,
    start_x := 0, start_y := 0, onCanvas := false }

/-- Dereference a widget object. -/
def Builder.getW (b : Builder) (r : Nat) : DW :=
  b.arena.getD r dummyDW

/-- Mutate one widget object in place (Python aliasing: every holder of
the reference sees the update). -/
def Builder.arenaModify (b : Builder) (r : Nat) (f : DW → DW) : Builder :=
  { b with arena := b.arena.set r (f (b.getW r)) }

/-- Fresh `GUIBuilder.__init__` state (source lines 330-335). -/
def emptyBuilder : Builder :=
  { arena := [], widgets := [], active_widget := none,
    undo_stack := [], redo_stack := [] }

/-- `GUIBuilder.push_undo` (source lines 825-827): append the action and
clear the redo stack. -/
def Builder.push_undo (b : Builder) (a : Action) : Builder :=
  { b with undo_stack := a :: b.undo_stack, redo_stack := [] }

/-- `GUIBuilder.select_widget` (source lines 571-573): arm placement. -/
def Builder.select_widget (b : Builder) (t : String) : Builder :=
  { b with active_widget := some t }

/-- `DraggableWidget.select` (source lines 146-152).  The loop over all
canvas "widget" items only resets their outline width (a rendering
attribute); it does not touch any other `DraggableWidget.selected`
flag, so the only document-state effect is on this widget. -/
def Builder.selectW (b : Builder) (r : Nat) : Builder :=
  b.arenaModify r (fun dw => { dw with selected := true })

/-- `GUIBuilder.place_widget` (source lines 587-643): snap, construct
the Tk widget by type (unknown type leaves `widget = None` and nothing
happens), wrap it in a `DraggableWidget`, append it, push a create
action, and disarm placement. -/
def Builder.place_widget (b : Builder) (px py : Int) : Builder :=
  match b.active_widget with
  | none => b
  | some t =>
    let x := snap px
    let y := snap py
    match makeWidget t with
    | none => b
    | some w =>
      let dw : DW :=
        { widget := w, widget_type := t, x := x, y := y, properties := [],
          selected := false, original_x := x, original_y := y,
          start_x := 0, start_y := 0, onCanvas := true }
      let r := b.arena.length
      let b1 : Builder := { b with arena := b.arena ++ [dw], widgets := b.widgets ++ [r] }
      let b2 := b1.push_undo (Action.create r)
      { b2 with active_widget := none }

/-- `DraggableWidget.on_start` (source lines 101-107): record the press
point and the current position, and select the widget. -/
def DW.on_start (dw : DW) (ex ey : Int) : DW :=
  { dw with start_x := ex, start_y := ey,
            original_x := dw.x, original_y := dw.y, selected := true }

def Builder.onStart (b : Builder) (r : Nat) (ex ey : Int) : Builder :=
  b.arenaModify r (fun dw => dw.on_start ex ey)

/-- `DraggableWidget.on_drag` (source lines 109-125): move to the
grid-snapped position of the dragged point; the guard only skips the
no-op canvas move. -/
def DW.on_drag (dw : DW) (ex ey : Int) : DW :=
  let dx := ex - dw.start_x
  let dy := ey - dw.start_y
  let new_x := snap (dw.x + dx)
  let new_y := snap (dw.y + dy)
  let dx2 := new_x - dw.x
  let dy2 := new_y - dw.y
  if dx2 ≠ 0 ∨ dy2 ≠ 0 then { dw with x := new_x, y := new_y } else dw

def Builder.onDrag (b : Builder) (r : Nat) (ex ey : Int) : Builder :=
  b.arenaModify r (fun dw => dw.on_drag ex ey)

/-- `DraggableWidget.on_release` (source lines 127-131): push one move
action carrying the pre-drag position iff the position changed. -/
def Builder.on_release (b : Builder) (r : Nat) : Builder :=
  let dw := b.getW r
  if dw.x ≠ dw.original_x ∨ dw.y ≠ dw.original_y then
    b.push_undo (Action.move r dw.original_x dw.original_y)
  else b

/-- One full pointer gesture on widget `r`: press, any number of move
events, release (the Drag Session of the spec). -/
def dragSession (b : Builder) (r : Nat) (px py : Int) (moves : List (Int × Int)) : Builder :=
  ((moves.foldl (fun acc m => acc.onDrag r m.1 m.2) (b.onStart r px py)).on_release r)

/-- The common "tear down" step the source performs on a widget:
`canvas.delete(dw.id); dw.widget.destroy()`. -/
def destroyDW (dw : DW) : DW :=
  { dw with onCanvas := false, widget := dw.widget.destroy }

/-- Body of the loop in `GUIBuilder.delete_selected` (source lines
819-823): push a delete action, remove the canvas item, destroy the Tk
widget, remove the reference from `self.widgets`. -/
def Builder.delete_one (b : Builder) (r : Nat) : Builder :=
  let b1 := b.push_undo (Action.delete r)
  let b2 := b1.arenaModify r
    destroyDW
  { b2 with widgets := b2.widgets.erase r }

/-- `GUIBuilder.delete_selected` (source lines 814-823): snapshot the
selected widgets, then delete each. -/
def Builder.delete_selected (b : Builder) : Builder :=
  (b.widgets.filter (fun r => (b.getW r).selected)).foldl Builder.delete_one b

/-- A raised `TclError` from the Tk layer. -/
inductive TkError where
  | badWindow
deriving DecidableEq

/-- `GUIBuilder.undo` (source lines 829-850).  The popped action first
moves to the redo stack; the `'delete'` branch re-appends the stored
reference and calls `canvas.create_window(..., window=dw.widget)`,
which raises `TclError` if that Tk widget has been destroyed (the
exception propagates after the list mutations already happened). -/
def Builder.undo (b : Builder) : Builder × Option TkError :=
  match b.undo_stack with
  | [] => (b, none)
  | a :: rest =>
    let b1 : Builder := { b with undo_stack := rest, redo_stack := a :: b.redo_stack }
    match a with
    | Action.create r =>
      let b2 := b1.arenaModify r
        destroyDW
      ({ b2 with widgets := b2.widgets.erase r }, none)
    | Action.delete r =>
      let b2 : Builder := { b1 with widgets := b1.widgets ++ [r] }
      if (b2.getW r).widget.alive then
        (b2.arenaModify r (fun dw => { dw with onCanvas := true }), none)
      else (b2, some TkError.badWindow)
    | Action.move r ox oy =>
      (b1.arenaModify r (fun dw => { dw with x := ox, y := oy }), none)

/-- `GUIBuilder.redo` (source lines 852-873).  Note the `'move'` branch
is translated exactly as written: it computes a canvas delta from the
stored old position and then assigns `dw.x, dw.y = old_x, old_y`. -/
def Builder.redo (b : Builder) : Builder × Option TkError :=
  match b.redo_stack with
  | [] => (b, none)
  | a :: rest =>
    let b1 : Builder := { b with redo_stack := rest, undo_stack := a :: b.undo_stack }
    match a with
    | Action.create r =>
      let b2 : Builder := { b1 with widgets := b1.widgets ++ [r] }
      if (b2.getW r).widget.alive then
        (b2.arenaModify r (fun dw => { dw with onCanvas := true }), none)
      else (b2, some TkError.badWindow)
    | Action.delete r =>
      let b2 := b1.arenaModify r
        destroyDW
      ({ b2 with widgets := b2.widgets.erase r }, none)
    | Action.move r ox oy =>
      (b1.arenaModify r (fun dw => { dw with x := ox, y := oy }), none)

/-- `GUIBuilder.clear_canvas` (source lines 663-669): destroy every live
widget, empty the widget list and both history stacks. -/
def Builder.clear_canvas (b : Builder) : Builder :=
  let b1 := b.widgets.foldl
    (fun acc r => acc.arenaModify r
      destroyDW) b
  { b1 with widgets := [], undo_stack := [], redo_stack := [] }

/-- `GUIBuilder.new_project` (source lines 655-661), after the user
confirms the dialog: clear the canvas (the `current_file` field is view
state and not modelled). -/
def Builder.new_project (b : Builder) : Builder :=
  b.clear_canvas

def digitVal (c : Char) : Option Nat :=
  if c.toNat ≥ 48 ∧ c.toNat ≤ 57 then some (c.toNat - 48) else none

def parseDigits : List Char → Option Nat
  | [] => none
  | cs => cs.foldl
      (fun acc c =>
        match acc, digitVal c with
        | some n, some d => some (10 * n + d)
        | _, _ => none)
      (some 0)

/-- Python's `int(s)` on the strings this program feeds it (an optional
sign followed by decimal digits); `none` models the raised
`ValueError`. -/
def parseIntPy (s : String) : Option Int :=
  match s.data with
  | '-' :: cs => (parseDigits cs).map (fun n => -(n : Int))
  | '+' :: cs => (parseDigits cs).map (fun n => (n : Int))
  | cs => (parseDigits cs).map (fun n => (n : Int))

/-- `PropertyEditor.update_property` (source lines 264-289): `x` and `y`
are assigned the raw parsed integer (no snapping); any other property
goes through `widget.config`; every failure is caught and leaves the
state unchanged. -/
def Builder.update_property (b : Builder) (r : Nat) (prop v : String) : Builder :=
  if prop = "x" then
    match parseIntPy v with
    | some n => b.arenaModify r (fun dw => { dw with x := n })
    | none => b
  else if prop = "y" then
    match parseIntPy v with
    | some n => b.arenaModify r (fun dw => { dw with y := n })
    | none => b
  else
    match (b.getW r).widget.config1 prop v with
    | some w => b.arenaModify r (fun dw => { dw with widget := w })
    | none => b

/-- One element of the persisted document's `widgets` array
(source lines 737-748 / 694-698). -/
structure SavedWidget where
  wtype : String
  x : Int
  y : Int
  properties : List (String × String)
deriving DecidableEq

/-- The repeated save pattern `dw.widget.cget(k) if k in
dw.widget.keys() else ''` of `_save_to_file` (source lines 742-746). -/
def savedVal (dw : DW) (k : String) : String :=
  if dw.widget.hasKey k then dw.widget.cget k else ""

/-- The per-widget record built by `GUIBuilder._save_to_file` (source
lines 736-749): type, position, and exactly five property entries, each
read from the Tk widget when present in `keys()` and saved as `''`
otherwise. -/
def saveWidget (dw : DW) : SavedWidget :=
  { wtype := dw.widget_type, x := dw.x, y := dw.y,
    properties :=
      [("text", savedVal dw "text"),
       ("width", savedVal dw "width"),
       ("height", savedVal dw "height"),
       ("background", savedVal dw "bg"),
       ("foreground", savedVal dw "fg")] }

/-- The `widgets` array written by `GUIBuilder._save_to_file`, in
z-order. -/
def Builder.save_data (b : Builder) : List SavedWidget :=
  b.widgets.map (fun r => saveWidget (b.getW r))

/-- One iteration of the property loop in `GUIBuilder.load_widget`
(source lines 706-710): `dw.widget.config({prop: value})`, with any
exception skipped. -/
def Builder.applyPropB (r : Nat) (b : Builder) (kv : String × String) : Builder :=
  match (b.getW r).widget.config1 kv.1 kv.2 with
  | some w => b.arenaModify r (fun dw => { dw with widget := w })
  | none => b

/-- `GUIBuilder.load_widget` (source lines 694-710): arm the saved type,
place at the saved coordinates, then apply the saved properties to the
*last* widget of `self.widgets` (whatever it is) when the list is
nonempty. -/
def Builder.load_widget (b : Builder) (wd : SavedWidget) : Builder :=
  let b1 := { b with active_widget := some wd.wtype }
  let b2 := b1.place_widget wd.x wd.y
  match b2.widgets.getLast? with
  | none => b2
  | some r => wd.properties.foldl (Builder.applyPropB r) b2

/-- `GUIBuilder.open_project` (source lines 671-692) on a successfully
parsed file: clear the current canvas, then load each saved widget in
file order. -/
def Builder.open_project (b : Builder) (ws : List SavedWidget) : Builder :=
  (b.clear_canvas |> ws.foldl Builder.load_widget)

/-- Fixed prologue of `GUIBuilder.generate_python_code` (source lines
780-788). -/
def genPrologue : List String :=
  ["import tkinter as tk",
   "from tkinter import ttk",
   "",
   "def create_gui():",
   "    root = tk.Tk()",
   "    root.title(\x27Generated GUI\x27)",
   ""]

/-- Fixed epilogue of `GUIBuilder.generate_python_code` (source lines
807-810). -/
def genEpilogue : List String :=
  ["    root.mainloop()",
   "",
   "if __name__ == \x27__main__\x27:",
   "    create_gui()"]

/-- Loop body of `GUIBuilder.generate_python_code` (source lines
791-805): a construction statement only for `Button`, `Label`, `Entry`
(the chain ends at the comment "Add other widget types as needed");
then, unconditionally, the placement statement and a blank line. -/
def genWidgetLines (i : Nat) (dw : DW) : List String :=
  let var_name := "widget_" ++ toString i
  let ctor : List String :=
    if dw.widget_type = "Button" then
      let text := if dw.widget.hasKey "text" then dw.widget.cget "text" else "Button"
      ["    " ++ var_name ++ " = ttk.Button(root, text=\x27" ++ text ++ "\x27)"]
    else if dw.widget_type = "Label" then
      let text := if dw.widget.hasKey "text" then dw.widget.cget "text" else "Label"
      ["    " ++ var_name ++ " = ttk.Label(root, text=\x27" ++ text ++ "\x27)"]
    else if dw.widget_type = "Entry" then
      ["    " ++ var_name ++ " = ttk.Entry(root)"]
    else []
  ctor ++
    ["    " ++ var_name ++ ".place(x=" ++ toString dw.x ++ ", y=" ++ toString dw.y ++ ")",
     ""]

/-- The `code` list of `GUIBuilder.generate_python_code` before joining. -/
def Builder.genLines (b : Builder) : List String :=
  genPrologue ++
    ((b.widgets.map b.getW).enum.map (fun p => genWidgetLines p.1 p.2)).flatten ++
    genEpilogue

/-- `GUIBuilder.generate_python_code` (source lines 779-812). -/
def Builder.generate_python_code (b : Builder) : String :=
  String.intercalate "\n" b.genLines

/-- Kernel-computable string prefix test (used only to state theorems
about the generated code lines). -/
def strStarts (p s : String) : Bool :=
  p.data.isPrefixOf s.data

/-! ### Concrete scenario states (built only through the embedded
operations, so each is a reachable program state) -/

/-- One Button placed at raw (20, 60) (already grid-aligned). -/
def mvStart : Builder := (emptyBuilder.select_widget "Button").place_widget 20 60

/-- The Button dragged once by (+40, 0): snapped final position (60, 60),
one move action recorded on release. -/
def mvDone : Builder := dragSession mvStart 0 0 0 [(40, 0)]

/-- A Button at (0,0) and a Label at (40,40). -/
def twoDoc : Builder :=
  (((emptyBuilder.select_widget "Button").place_widget 0 0).select_widget
      "Label").place_widget 40 40

/-- Both widgets of `twoDoc` selected in turn. -/
def twoSel : Builder := (twoDoc.selectW 0).selectW 1

/-- A placed Button, selected, then deleted via `delete_selected`. -/
def delDone : Builder :=
  (((emptyBuilder.select_widget "Button").place_widget 0 0).selectW 0).delete_selected

/-- A document with one Button, used as the previously open document. -/
def priorDoc : Builder := (emptyBuilder.select_widget "Button").place_widget 0 0

/-- `priorDoc` after loading a file whose only widget has the unknown
type "Bogus". -/
def badLoad : Builder := priorDoc.open_project [⟨"Bogus", 10, 10, []⟩]

/-- A document holding one Text widget at (40, 40). -/
def textDoc : Builder := (emptyBuilder.select_widget "Text").place_widget 40 40

/-- A Button placed at raw (23, 57), so stored at (20, 60). -/
def snapDoc : Builder := (emptyBuilder.select_widget "Button").place_widget 23 57

/-- `snapDoc` after setting `x` to `23` through the property editor. -/
def snapDocEdited : Builder := snapDoc.update_property 0 "x" "23"

/-- An Entry placed at (20, 20), its `x` set to 23 and its `show` option
set to `*` through the property editor. -/
def entryEdited : Builder :=
  (((emptyBuilder.select_widget "Entry").place_widget 20 20).update_property
      0 "x" "23").update_property 0 "show" "*"

/-- `entryEdited` saved and loaded into a fresh empty builder. -/
def entryReloaded : Builder := emptyBuilder.open_project entryEdited.save_data

/-- A fresh builder after loading a one-Button document. -/
def loadedOne : Builder := emptyBuilder.open_project [⟨"Button", 20, 20, []⟩]

/-- The `DraggableWidget` freshly constructed by `place_widget` for a
known type at snapped coordinates (the record literal of the embedding
of lines 629-631, named for reuse in theorem statements). -/
def newDW (t : String) (px py : Int) : DW :=
  { widget := (makeWidget t).getD dummyTk, widget_type := t,
    x := snap px, y := snap py, properties := [], selected := false,
    original_x := snap px, original_y := snap py,
    start_x := 0, start_y := 0, onCanvas := true }

/-- Widget-level restatement of one iteration of `load_widget`'s
property loop. -/
def applyProp1 (dw : DW) (kv : String × String) : DW :=
  match dw.widget.config1 kv.1 kv.2 with
  | some w => { dw with widget := w }
  | none => dw

/-- Widget-level restatement of `load_widget`'s whole property loop. -/
def applyConfigs (dw : DW) (props : List (String × String)) : DW :=
  props.foldl applyProp1 dw

/-- The widget reconstructed by `load_widget` from one saved record of
known type. -/
def loadedDW (wd : SavedWidget) : DW :=
  applyConfigs (newDW wd.wtype wd.x wd.y) wd.properties

/-- Well-formedness of a live placed widget: its Tk widget is alive and
its class data (option table, tk/ttk kind) is that of its type's
constructor.  This holds of every widget the program itself creates. -/
def DW.wf (dw : DW) : Prop :=
  ∃ w0, makeWidget dw.widget_type = some w0 ∧
    dw.widget.validKeys = w0.validKeys ∧
    dw.widget.tkBased = w0.tkBased ∧
    dw.widget.alive = true

/-- The five property keys `_save_to_file` reads, spelled as the save
code checks them against `keys()`. -/
def savedKeys : List String := ["text", "width", "height", "bg", "fg"]

/-! ### Grid-snapper lemmas -/

theorem snap_twenty_mul (m : Int) : snap (20 * m) = 20 * m := by
  unfold snap
  rw [Int.mul_emod_right, Int.mul_ediv_cancel_left _ (by norm_num)]
  norm_num

theorem snap_exists_mul (v : Int) : ∃ m, snap v = 20 * m := by
  unfold snap
  split
  · exact ⟨_, rfl⟩
  split
  · exact ⟨_, rfl⟩
  split
  · exact ⟨_, rfl⟩
  · exact ⟨_, rfl⟩

theorem snap_emod (v : Int) : snap v % 20 = 0 := by
  obtain ⟨m, hm⟩ := snap_exists_mul v
  rw [hm]
  exact Int.mul_emod_right 20 m

theorem snap_idem (v : Int) : snap (snap v) = snap v := by
  obtain ⟨m, hm⟩ := snap_exists_mul v
  rw [hm, snap_twenty_mul]

theorem snap_of_emod_eq_zero {v : Int} (h : v % 20 = 0) : snap v = v := by
  obtain ⟨m, rfl⟩ := Int.dvd_of_emod_eq_zero h
  exact snap_twenty_mul m

/-! ### List and state helper lemmas -/

theorem getD_set_self {α : Type} (l : List α) (n : Nat) (a d : α) (h : n < l.length) :
    (l.set n a).getD n d = a := by
  simp [List.getD_eq_getD_get?, List.get?_eq_getElem?, List.getElem?_set, h]

theorem getD_set_ne {α : Type} (l : List α) {n m : Nat} (a d : α) (h : n ≠ m) :
    (l.set n a).getD m d = l.getD m d := by
  simp [List.getD_eq_getD_get?, List.get?_eq_getElem?, List.getElem?_set_ne h]

theorem getD_append_len {α : Type} (l : List α) (a d : α) :
    (l ++ [a]).getD l.length d = a := by
  rw [List.getD_append_right _ _ _ _ (le_refl _)]
  simp

theorem set_append_len {α : Type} (l : List α) (a a' : α) :
    (l ++ [a]).set l.length a' = l ++ [a'] := by
  rw [List.set_append_right _ _ (le_refl _)]
  simp

theorem set_getD_self {α : Type} (l : List α) (n : Nat) (d : α) (h : n < l.length) :
    l.set n (l.getD n d) = l := by
  apply List.ext_getElem?
  intro m
  rw [List.getElem?_set]
  split
  · rename_i hnm
    subst hnm
    simp [List.getD_eq_getElem l d h, h, List.getElem?_eq_getElem h]
  · rfl

@[simp] theorem arenaModify_widgets (b : Builder) (r : Nat) (f : DW → DW) :
    (b.arenaModify r f).widgets = b.widgets := rfl

@[simp] theorem arenaModify_undo (b : Builder) (r : Nat) (f : DW → DW) :
    (b.arenaModify r f).undo_stack = b.undo_stack := rfl

@[simp] theorem arenaModify_redo (b : Builder) (r : Nat) (f : DW → DW) :
    (b.arenaModify r f).redo_stack = b.redo_stack := rfl

@[simp] theorem arenaModify_active (b : Builder) (r : Nat) (f : DW → DW) :
    (b.arenaModify r f).active_widget = b.active_widget := rfl

@[simp] theorem arenaModify_length (b : Builder) (r : Nat) (f : DW → DW) :
    (b.arenaModify r f).arena.length = b.arena.length := by
  simp [Builder.arenaModify]

theorem getW_modify_self (b : Builder) (r : Nat) (f : DW → DW) (h : r < b.arena.length) :
    (b.arenaModify r f).getW r = f (b.getW r) := by
  show (b.arena.set r (f (b.getW r))).getD r dummyDW = f (b.getW r)
  exact getD_set_self _ _ _ _ h

theorem getW_modify_ne (b : Builder) {r r' : Nat} (f : DW → DW) (h : r ≠ r') :
    (b.arenaModify r f).getW r' = b.getW r' := by
  show (b.arena.set r (f (b.getW r))).getD r' dummyDW = b.arena.getD r' dummyDW
  exact getD_set_ne _ _ _ h

theorem arenaModify_oob (b : Builder) (r : Nat) (f : DW → DW)
    (h : b.arena.length ≤ r) : b.arenaModify r f = b := by
  unfold Builder.arenaModify
  rw [List.set_eq_of_length_le h]

theorem on_drag_keeps_original_x (dw : DW) (ex ey : Int) :
    (dw.on_drag ex ey).original_x = dw.original_x := by
  simp only [DW.on_drag]
  split <;> rfl

theorem on_drag_keeps_original_y (dw : DW) (ex ey : Int) :
    (dw.on_drag ex ey).original_y = dw.original_y := by
  simp only [DW.on_drag]
  split <;> rfl

theorem onDrag_getW_original_x (b : Builder) (r : Nat) (ex ey : Int) :
    ((b.onDrag r ex ey).getW r).original_x = (b.getW r).original_x := by
  rcases Nat.lt_or_ge r b.arena.length with h | h
  · rw [Builder.onDrag, getW_modify_self _ _ _ h, on_drag_keeps_original_x]
  · rw [Builder.onDrag, arenaModify_oob _ _ _ h]

theorem onDrag_getW_original_y (b : Builder) (r : Nat) (ex ey : Int) :
    ((b.onDrag r ex ey).getW r).original_y = (b.getW r).original_y := by
  rcases Nat.lt_or_ge r b.arena.length with h | h
  · rw [Builder.onDrag, getW_modify_self _ _ _ h, on_drag_keeps_original_y]
  · rw [Builder.onDrag, arenaModify_oob _ _ _ h]

/-- The pointer-move loop of a drag session never touches the history
stacks and never changes the recorded press-time position. -/
theorem onDrag_fold_invariant (r : Nat) (moves : List (Int × Int)) (b : Builder) :
    (moves.foldl (fun acc m => acc.onDrag r m.1 m.2) b).undo_stack = b.undo_stack ∧
    (moves.foldl (fun acc m => acc.onDrag r m.1 m.2) b).redo_stack = b.redo_stack ∧
    ((moves.foldl (fun acc m => acc.onDrag r m.1 m.2) b).getW r).original_x =
      (b.getW r).original_x ∧
    ((moves.foldl (fun acc m => acc.onDrag r m.1 m.2) b).getW r).original_y =
      (b.getW r).original_y := by
  induction moves generalizing b with
  | nil => exact ⟨rfl, rfl, rfl, rfl⟩
  | cons m ms ih =>
    simp only [List.foldl_cons]
    obtain ⟨h1, h2, h3, h4⟩ := ih (b.onDrag r m.1 m.2)
    refine ⟨h1.trans rfl, h2.trans rfl, ?_, ?_⟩
    · rw [h3, onDrag_getW_original_x]
    · rw [h4, onDrag_getW_original_y]

/-! ### Claims -/

/-- C9: for every integer coordinate, the snap computation used at
source lines 113-117 and 591-593 is idempotent and its result is an
exact multiple of the grid unit. -/
theorem C9_snap_idempotent_and_aligned (x : Int) :
    snap (snap x) = snap x ∧ snap x % GRID_SIZE = 0 :=
  ⟨snap_idem x, snap_emod x⟩

/-- C1 (code bug): a Button placed at (20,60) and dragged to (60,60)
records one move action; `undo()` returns it to (20,60), but `redo()`
leaves it at (20,60) instead of re-applying the move to (60,60) — the
`'move'` branch of `redo` (source lines 868-873) assigns the stored
*old* position, and the post-move position was already overwritten by
`undo`, so it is unrecoverable. -/
theorem C1_redo_of_move_keeps_old_position :
    (mvDone.getW 0).x = 60 ∧ (mvDone.getW 0).y = 60 ∧
    mvDone.undo_stack = [Action.move 0 20 60, Action.create 0] ∧
    (mvDone.undo.1.getW 0).x = 20 ∧
    (mvDone.undo.1.redo.1.getW 0).x = 20 ∧
    (mvDone.undo.1.redo.1.getW 0).x ≠ (mvDone.getW 0).x := by decide

/-- C2 (code bug): after selecting the first and then the second of two
widgets, both `selected` flags are true — `DraggableWidget.select`
(source lines 146-152) only resets canvas outline widths and never
clears another widget's `selected` flag (its own comment says "Deselect
all other widgets first"), so `delete_selected` would treat both as
selected. -/
theorem C2_selection_not_exclusive :
    ((twoSel.getW 0).selected = true ∧ (twoSel.getW 1).selected = true) ∧
    twoSel.widgets.filter (fun r => (twoSel.getW r).selected) = [0, 1] := by decide

/-- C4 (code bug): before deletion the Button's Tk widget carries its
properties (text "Button"); `delete_selected` (source line 822) calls
`dw.widget.destroy()`, so the `'delete'` branch of `undo` calls
`canvas.create_window` on a destroyed widget — a `TclError` — and the
restored entry has no live widget and no property state. -/
theorem C4_undo_of_delete_cannot_restore :
    ((priorDoc.getW 0).widget.cget "text" = "Button" ∧
      (priorDoc.getW 0).widget.alive = true) ∧
    delDone.undo.2 = some TkError.badWindow ∧
    (delDone.undo.1.getW 0).widget.alive = false ∧
    (delDone.undo.1.getW 0).widget.cget "text" = "" := by decide

/-- C3 counterexample: loading a document whose only widget has the
unknown type "Bogus" into a builder holding one Button raises no error,
silently skips the unknown entry, and does *not* leave the previously
open document untouched: its widget list is emptied, its widget
destroyed, and its history cleared. -/
theorem C3_counterexample :
    priorDoc.widgets = [0] ∧ priorDoc.undo_stack = [Action.create 0] ∧
    badLoad.widgets = [] ∧ (badLoad.getW 0).widget.alive = false ∧
    badLoad.undo_stack = [] := by decide

/-- C5 counterexample: for a document holding one Text widget at
(40,40), the generated code contains the placement statement for
`widget_0` but no construction statement of any form for it. -/
theorem C5_counterexample :
    textDoc.genLines.contains "    widget_0.place(x=40, y=40)" = true ∧
    textDoc.genLines.all (fun l => !(strStarts "    widget_0 = " l)) = true := by decide

/-- C6 counterexample: a Button placed at raw (23,57) is stored snapped
at (20,60), but editing `x` to `23` through the property editor stores
the raw value 23, which is not a multiple of the grid unit. -/
theorem C6_counterexample :
    (snapDoc.getW 0).x = 20 ∧ (snapDoc.getW 0).y = 60 ∧
    (snapDocEdited.getW 0).x = 23 ∧
    ¬((snapDocEdited.getW 0).x % GRID_SIZE = 0) := by decide

/-- C8 counterexample: an Entry whose `x` was set to 23 and whose
`show` option was set to `*` through the property editor does not
round-trip: after save and load into a fresh builder the reconstructed
Entry sits at the re-snapped x = 20 and its `show` option is back to
the default, because `_save_to_file` persists only five fixed property
keys and `place_widget` re-snaps the saved coordinates. -/
theorem C8_counterexample :
    ((entryEdited.getW 0).x = 23 ∧ (entryEdited.getW 0).widget.cget "show" = "*") ∧
    entryReloaded.widgets.length = 1 ∧
    (entryReloaded.getW 0).x = 20 ∧
    (entryReloaded.getW 0).widget.cget "show" = "" := by decide

/-- C10 counterexample: loading a one-Button document into a fresh
builder leaves one `create` entry on the undo stack (pushed by
`place_widget` during the load), so `undo()` immediately afterwards is
not a no-op: it removes the loaded widget. -/
theorem C10_counterexample :
    loadedOne.widgets.length = 1 ∧ loadedOne.undo_stack = [Action.create 0] ∧
    loadedOne.undo.1.widgets = [] := by decide

/-- C7: for every drag session — press, any number of intermediate
pointer-move events, release — on a widget of the document: if the
final position differs from the press-time position, exactly one move
action carrying the press-time position is pushed onto the undo stack
(and the redo stack is cleared); if the final position equals the
press-time position, the history stacks are untouched. -/
theorem C7_drag_session_single_move (b : Builder) (r : Nat) (px py : Int)
    (moves : List (Int × Int)) (h : r < b.arena.length) :
    (((dragSession b r px py moves).getW r).x ≠ (b.getW r).x ∨
        ((dragSession b r px py moves).getW r).y ≠ (b.getW r).y →
      (dragSession b r px py moves).undo_stack =
        Action.move r (b.getW r).x (b.getW r).y :: b.undo_stack ∧
      (dragSession b r px py moves).redo_stack = []) ∧
    (((dragSession b r px py moves).getW r).x = (b.getW r).x ∧
        ((dragSession b r px py moves).getW r).y = (b.getW r).y →
      (dragSession b r px py moves).undo_stack = b.undo_stack ∧
      (dragSession b r px py moves).redo_stack = b.redo_stack) := by
  have hbs_x : ((b.onStart r px py).getW r).original_x = (b.getW r).x := by
    unfold Builder.onStart
    rw [getW_modify_self _ _ _ h]
    rfl
  have hbs_y : ((b.onStart r px py).getW r).original_y = (b.getW r).y := by
    unfold Builder.onStart
    rw [getW_modify_self _ _ _ h]
    rfl
  obtain ⟨hf_u, hf_r, hf_x, hf_y⟩ := onDrag_fold_invariant r moves (b.onStart r px py)
  set bf := moves.foldl (fun acc m => acc.onDrag r m.1 m.2) (b.onStart r px py) with hbf
  have horig_x : (bf.getW r).original_x = (b.getW r).x := by rw [hf_x, hbs_x]
  have horig_y : (bf.getW r).original_y = (b.getW r).y := by rw [hf_y, hbs_y]
  have hu : bf.undo_stack = b.undo_stack := hf_u
  have hr2 : bf.redo_stack = b.redo_stack := hf_r
  have hsession : dragSession b r px py moves = bf.on_release r := rfl
  rw [hsession]
  simp only [Builder.on_release]
  by_cases hc : (bf.getW r).x ≠ (bf.getW r).original_x ∨ (bf.getW r).y ≠ (bf.getW r).original_y
  · rw [if_pos hc]
    constructor
    · intro _
      refine ⟨?_, rfl⟩
      show Action.move r (bf.getW r).original_x (bf.getW r).original_y :: bf.undo_stack = _
      rw [horig_x, horig_y, hu]
    · intro hxy
      exfalso
      have hx : (bf.getW r).x = (b.getW r).x := hxy.1
      have hy : (bf.getW r).y = (b.getW r).y := hxy.2
      rcases hc with hcx | hcy
      · exact hcx (hx.trans horig_x.symm)
      · exact hcy (hy.trans horig_y.symm)
  · rw [if_neg hc]
    push_neg at hc
    constructor
    · intro hne
      exfalso
      rcases hne with hnx | hny
      · exact hnx (hc.1.trans horig_x)
      · exact hny (hc.2.trans horig_y)
    · intro _
      exact ⟨hu, hr2⟩

/-- Witness for C7 at the spec's concrete drag scenario: Button at
(20,60), press at (0,0), pointer moves (+5,+3) then (+45,+3), releasing
at snapped (60,60). -/
theorem C7_witness :
    (((dragSession mvStart 0 0 0 [(5, 3), (45, 3)]).getW 0).x ≠ (mvStart.getW 0).x ∨
        ((dragSession mvStart 0 0 0 [(5, 3), (45, 3)]).getW 0).y ≠ (mvStart.getW 0).y →
      (dragSession mvStart 0 0 0 [(5, 3), (45, 3)]).undo_stack =
        Action.move 0 (mvStart.getW 0).x (mvStart.getW 0).y :: mvStart.undo_stack ∧
      (dragSession mvStart 0 0 0 [(5, 3), (45, 3)]).redo_stack = []) ∧
    (((dragSession mvStart 0 0 0 [(5, 3), (45, 3)]).getW 0).x = (mvStart.getW 0).x ∧
        ((dragSession mvStart 0 0 0 [(5, 3), (45, 3)]).getW 0).y = (mvStart.getW 0).y →
      (dragSession mvStart 0 0 0 [(5, 3), (45, 3)]).undo_stack = mvStart.undo_stack ∧
      (dragSession mvStart 0 0 0 [(5, 3), (45, 3)]).redo_stack = mvStart.redo_stack) :=
  C7_drag_session_single_move mvStart 0 0 0 [(5, 3), (45, 3)] (by decide)

/-- C6 (amended): positions are grid-aligned after placement and after
every drag update, and undo/redo of a move restore exactly the recorded
positions; but `update_property` on `x` assigns the raw parsed integer
with no snapping, which is the mutation path that breaks the claimed
invariant. -/
theorem C6_amended_alignment :
    (∀ (dw : DW) (ex ey : Int),
        (dw.on_drag ex ey).x % GRID_SIZE = 0 ∧ (dw.on_drag ex ey).y % GRID_SIZE = 0) ∧
    (∀ (b : Builder) (px py : Int),
        (b.place_widget px py).arena = b.arena ∨
          ∃ d, (b.place_widget px py).arena = b.arena ++ [d] ∧
            d.x % GRID_SIZE = 0 ∧ d.y % GRID_SIZE = 0) ∧
    (∀ (b : Builder) (r : Nat) (v : String) (n : Int),
        parseIntPy v = some n → r < b.arena.length →
        ((b.update_property r "x" v).getW r).x = n) ∧
    (∀ (b : Builder) (r : Nat) (ox oy : Int) (rest : List Action),
        b.undo_stack = Action.move r ox oy :: rest → r < b.arena.length →
        ((b.undo).1.getW r).x = ox ∧ ((b.undo).1.getW r).y = oy) ∧
    (∀ (b : Builder) (r : Nat) (ox oy : Int) (rest : List Action),
        b.redo_stack = Action.move r ox oy :: rest → r < b.arena.length →
        ((b.redo).1.getW r).x = ox ∧ ((b.redo).1.getW r).y = oy) := by
  refine ⟨?_, ?_, ?_, ?_, ?_⟩
  · intro dw ex ey
    simp only [DW.on_drag]
    split
    · exact ⟨snap_emod _, snap_emod _⟩
    · rename_i hcond
      push_neg at hcond
      obtain ⟨h1, h2⟩ := hcond
      constructor
      · have hx : dw.x = snap (dw.x + (ex - dw.start_x)) := by omega
        rw [hx]
        exact snap_emod _
      · have hy : dw.y = snap (dw.y + (ey - dw.start_y)) := by omega
        rw [hy]
        exact snap_emod _
  · intro b px py
    cases hb : b.active_widget with
    | none => exact Or.inl (by simp [Builder.place_widget, hb])
    | some t =>
      cases hm : makeWidget t with
      | none => exact Or.inl (by simp [Builder.place_widget, hb, hm])
      | some w =>
        refine Or.inr ⟨newDW t px py, ?_, snap_emod px, snap_emod py⟩
        simp [Builder.place_widget, hb, hm, Builder.push_undo, newDW]
  · intro b r v n hp h
    simp [Builder.update_property, hp]
    rw [getW_modify_self _ _ _ h]
  · intro b r ox oy rest hst h
    simp only [Builder.undo, hst]
    rw [getW_modify_self
      { b with undo_stack := rest, redo_stack := Action.move r ox oy :: b.redo_stack } r _ h]
    exact ⟨rfl, rfl⟩
  · intro b r ox oy rest hst h
    simp only [Builder.redo, hst]
    rw [getW_modify_self
      { b with redo_stack := rest, undo_stack := Action.move r ox oy :: b.undo_stack } r _ h]
    exact ⟨rfl, rfl⟩

/-- Witness for C6 (amended): each clause applied at a concrete input —
a drag step, placing a Button at raw (23,57), the property-editor edit
`x := 23` on `snapDoc`, and undo/redo of the move recorded in
`mvDone`. -/
theorem C6_amended_witness :
    ((dummyDW.on_drag 7 9).x % GRID_SIZE = 0 ∧ (dummyDW.on_drag 7 9).y % GRID_SIZE = 0) ∧
    (((emptyBuilder.select_widget "Button").place_widget 23 57).arena =
        (emptyBuilder.select_widget "Button").arena ∨
      ∃ d, ((emptyBuilder.select_widget "Button").place_widget 23 57).arena =
          (emptyBuilder.select_widget "Button").arena ++ [d] ∧
        d.x % GRID_SIZE = 0 ∧ d.y % GRID_SIZE = 0) ∧
    ((snapDoc.update_property 0 "x" "23").getW 0).x = 23 ∧
    ((mvDone.undo.1.getW 0).x = 20 ∧ (mvDone.undo.1.getW 0).y = 60) :=
  ⟨C6_amended_alignment.1 dummyDW 7 9,
   C6_amended_alignment.2.1 (emptyBuilder.select_widget "Button") 23 57,
   C6_amended_alignment.2.2.1 snapDoc 0 "23" 23 (by decide) (by decide),
   C6_amended_alignment.2.2.2.1 mvDone 0 20 60 [Action.create 0] (by decide) (by decide)⟩

/-- C5 (amended): the generated code is prologue, then per-widget
chunks in z-order, then epilogue; a widget of type Button, Label or
Entry contributes a construction statement followed by its placement
statement, while a widget of any other type contributes *only* the
placement statement — no construction statement and no fallback stub. -/
theorem C5_amended_ctor_only_for_three_types :
    (∀ (b : Builder), b.genLines =
        genPrologue ++
          ((b.widgets.map b.getW).enum.map (fun p => genWidgetLines p.1 p.2)).flatten ++
          genEpilogue) ∧
    (∀ (i : Nat) (dw : DW),
      (dw.widget_type = "Button" ∨ dw.widget_type = "Label" ∨ dw.widget_type = "Entry" →
        ∃ c, genWidgetLines i dw =
          [c,
           "    " ++ ("widget_" ++ toString i) ++ ".place(x=" ++ toString dw.x ++
             ", y=" ++ toString dw.y ++ ")",
           ""]) ∧
      (dw.widget_type ≠ "Button" → dw.widget_type ≠ "Label" → dw.widget_type ≠ "Entry" →
        genWidgetLines i dw =
          ["    " ++ ("widget_" ++ toString i) ++ ".place(x=" ++ toString dw.x ++
             ", y=" ++ toString dw.y ++ ")",
           ""])) := by
  constructor
  · intro b
    rfl
  · intro i dw
    constructor
    · intro h3
      rcases h3 with h | h | h
      · exact ⟨"    " ++ ("widget_" ++ toString i) ++ " = ttk.Button(root, text=\x27" ++
          (if dw.widget.hasKey "text" then dw.widget.cget "text" else "Button") ++ "\x27)",
          by simp [genWidgetLines, h]⟩
      · exact ⟨"    " ++ ("widget_" ++ toString i) ++ " = ttk.Label(root, text=\x27" ++
          (if dw.widget.hasKey "text" then dw.widget.cget "text" else "Label") ++ "\x27)",
          by simp [genWidgetLines, h]⟩
      · exact ⟨"    " ++ ("widget_" ++ toString i) ++ " = ttk.Entry(root)",
          by simp [genWidgetLines, h]⟩
    · intro h1 h2 h3
      simp only [genWidgetLines]
      rw [if_neg h1, if_neg h2, if_neg h3]
      rfl

/-- Witness for C5 (amended): the Button of `mvStart` gets a
construction statement before its placement statement; the Text widget
of `textDoc` gets only the placement statement. -/
theorem C5_amended_witness :
    (∃ c, genWidgetLines 0 (mvStart.getW 0) =
        [c,
         "    " ++ ("widget_" ++ toString 0) ++ ".place(x=" ++ toString (mvStart.getW 0).x ++
           ", y=" ++ toString (mvStart.getW 0).y ++ ")",
         ""]) ∧
    genWidgetLines 0 (textDoc.getW 0) =
        ["    " ++ ("widget_" ++ toString 0) ++ ".place(x=" ++ toString (textDoc.getW 0).x ++
           ", y=" ++ toString (textDoc.getW 0).y ++ ")",
         ""] :=
  ⟨(C5_amended_ctor_only_for_three_types.2 0 (mvStart.getW 0)).1 (Or.inl (by decide)),
   (C5_amended_ctor_only_for_three_types.2 0 (textDoc.getW 0)).2
     (by decide) (by decide) (by decide)⟩

/-! ### Characterisation of the load path -/

theorem config1_some_eq {w w' : TkWidget} {k v : String}
    (hc : w.config1 k v = some w') :
    w' = { w with cfg := (normKey k, v) :: w.cfg } ∧
    w.alive = true ∧ w.validKeys.contains (normKey k) = true := by
  unfold TkWidget.config1 at hc
  split at hc
  · rename_i hcond
    rw [Bool.and_eq_true] at hcond
    injection hc with hc
    exact ⟨hc.symm, hcond.1, hcond.2⟩
  · exact Option.noConfusion hc

theorem applyProp1_fields (dw : DW) (kv : String × String) :
    (applyProp1 dw kv).widget_type = dw.widget_type ∧
    (applyProp1 dw kv).x = dw.x ∧ (applyProp1 dw kv).y = dw.y := by
  unfold applyProp1
  cases hc : dw.widget.config1 kv.1 kv.2 <;> exact ⟨rfl, rfl, rfl⟩

theorem applyConfigs_fields (props : List (String × String)) (dw : DW) :
    (applyConfigs dw props).widget_type = dw.widget_type ∧
    (applyConfigs dw props).x = dw.x ∧ (applyConfigs dw props).y = dw.y := by
  induction props generalizing dw with
  | nil => exact ⟨rfl, rfl, rfl⟩
  | cons kv rest ih =>
    have h1 := applyProp1_fields dw kv
    have h2 := ih (applyProp1 dw kv)
    exact ⟨h2.1.trans h1.1, h2.2.1.trans h1.2.1, h2.2.2.trans h1.2.2⟩

theorem applyProp1_class (dw : DW) (kv : String × String) :
    (applyProp1 dw kv).widget.validKeys = dw.widget.validKeys ∧
    (applyProp1 dw kv).widget.alive = dw.widget.alive ∧
    (applyProp1 dw kv).widget.tkBased = dw.widget.tkBased := by
  unfold applyProp1
  cases hc : dw.widget.config1 kv.1 kv.2 with
  | none => exact ⟨rfl, rfl, rfl⟩
  | some w' =>
    obtain ⟨hw', _, _⟩ := config1_some_eq hc
    subst hw'
    exact ⟨rfl, rfl, rfl⟩

theorem applyConfigs_class (props : List (String × String)) (dw : DW) :
    (applyConfigs dw props).widget.validKeys = dw.widget.validKeys ∧
    (applyConfigs dw props).widget.alive = dw.widget.alive ∧
    (applyConfigs dw props).widget.tkBased = dw.widget.tkBased := by
  induction props generalizing dw with
  | nil => exact ⟨rfl, rfl, rfl⟩
  | cons kv rest ih =>
    have h1 := applyProp1_class dw kv
    have h2 := ih (applyProp1 dw kv)
    exact ⟨h2.1.trans h1.1, h2.2.1.trans h1.2.1, h2.2.2.trans h1.2.2⟩

theorem applyProp1_cget_ne (dw : DW) (kv : String × String) (k : String)
    (hne : normKey kv.1 ≠ normKey k) :
    (applyProp1 dw kv).widget.cget k = dw.widget.cget k := by
  unfold applyProp1
  cases hc : dw.widget.config1 kv.1 kv.2 with
  | none => rfl
  | some w' =>
    obtain ⟨hw', _, _⟩ := config1_some_eq hc
    subst hw'
    have hb : (normKey k == normKey kv.1) = false := beq_eq_false_iff_ne.mpr (Ne.symm hne)
    simp [TkWidget.cget, List.lookup, hb]

theorem applyProp1_cget_self (dw : DW) (k1 v k : String)
    (hkk : normKey k1 = normKey k)
    (halive : dw.widget.alive = true)
    (hvk : dw.widget.validKeys.contains (normKey k1) = true) :
    (applyProp1 dw (k1, v)).widget.cget k = v := by
  unfold applyProp1
  cases hc : dw.widget.config1 k1 v with
  | none =>
    unfold TkWidget.config1 at hc
    rw [halive, hvk] at hc
    simp at hc
  | some w' =>
    obtain ⟨hw', _, _⟩ := config1_some_eq hc
    subst hw'
    rw [TkWidget.cget]
    simp only [← hkk]
    simp [List.lookup]

theorem applyConfigs_cget_skip (props : List (String × String)) (dw : DW) (k : String)
    (hall : ∀ kv ∈ props, normKey kv.1 ≠ normKey k) :
    (applyConfigs dw props).widget.cget k = dw.widget.cget k := by
  induction props generalizing dw with
  | nil => rfl
  | cons kv rest ih =>
    have h1 : normKey kv.1 ≠ normKey k := hall kv (List.mem_cons_self _ _)
    have h2 := ih (applyProp1 dw kv) (fun kv' h' => hall kv' (List.mem_cons_of_mem _ h'))
    exact h2.trans (applyProp1_cget_ne dw kv k h1)

theorem applyPropB_step (b : Builder) (r : Nat) (kv : String × String)
    (h : r < b.arena.length) :
    Builder.applyPropB r b kv =
      { b with arena := b.arena.set r (applyProp1 (b.getW r) kv) } := by
  unfold Builder.applyPropB applyProp1 Builder.arenaModify
  cases hc : (b.getW r).widget.config1 kv.1 kv.2 with
  | some w => simp only [hc]
  | none =>
    simp only [hc]
    rw [show b.getW r = b.arena.getD r dummyDW from rfl, set_getD_self _ _ _ h]

theorem applyPropB_foldl (props : List (String × String)) (b : Builder) (r : Nat)
    (h : r < b.arena.length) :
    props.foldl (Builder.applyPropB r) b =
      { b with arena := b.arena.set r (applyConfigs (b.getW r) props) } := by
  induction props generalizing b with
  | nil =>
    show b = _
    conv_rhs => rw [show applyConfigs (b.getW r) [] = b.arena.getD r dummyDW from rfl]
    rw [set_getD_self _ _ _ h]
  | cons kv rest ih =>
    rw [List.foldl_cons, applyPropB_step b r kv h]
    rw [ih _ (by simpa using h)]
    have hb' : ({ b with arena := b.arena.set r (applyProp1 (b.getW r) kv) } : Builder).getW r
        = applyProp1 (b.getW r) kv := by
      show (b.arena.set r (applyProp1 (b.getW r) kv)).getD r dummyDW = _
      exact getD_set_self _ _ _ _ h
    rw [hb', List.set_set]
    rfl

theorem propsFold_fields (props : List (String × String)) (r : Nat) (b : Builder) :
    (props.foldl (Builder.applyPropB r) b).widgets = b.widgets ∧
    (props.foldl (Builder.applyPropB r) b).undo_stack = b.undo_stack ∧
    (props.foldl (Builder.applyPropB r) b).redo_stack = b.redo_stack ∧
    (props.foldl (Builder.applyPropB r) b).active_widget = b.active_widget ∧
    (props.foldl (Builder.applyPropB r) b).arena.length = b.arena.length := by
  induction props generalizing b with
  | nil => exact ⟨rfl, rfl, rfl, rfl, rfl⟩
  | cons kv rest ih =>
    rw [List.foldl_cons]
    have h2 := ih (Builder.applyPropB r b kv)
    have h1 : (Builder.applyPropB r b kv).widgets = b.widgets ∧
        (Builder.applyPropB r b kv).undo_stack = b.undo_stack ∧
        (Builder.applyPropB r b kv).redo_stack = b.redo_stack ∧
        (Builder.applyPropB r b kv).active_widget = b.active_widget ∧
        (Builder.applyPropB r b kv).arena.length = b.arena.length := by
      unfold Builder.applyPropB
      cases hc : (b.getW r).widget.config1 kv.1 kv.2 with
      | some w => exact ⟨rfl, rfl, rfl, rfl, by simp [Builder.arenaModify]⟩
      | none => exact ⟨rfl, rfl, rfl, rfl, rfl⟩
    exact ⟨h2.1.trans h1.1, h2.2.1.trans h1.2.1, h2.2.2.1.trans h1.2.2.1,
      h2.2.2.2.1.trans h1.2.2.2.1, h2.2.2.2.2.trans h1.2.2.2.2⟩

theorem propsFold_getW_ne (props : List (String × String)) (r r' : Nat) (b : Builder)
    (hne : r ≠ r') :
    (props.foldl (Builder.applyPropB r) b).getW r' = b.getW r' := by
  induction props generalizing b with
  | nil => rfl
  | cons kv rest ih =>
    rw [List.foldl_cons]
    refine (ih (Builder.applyPropB r b kv)).trans ?_
    unfold Builder.applyPropB
    cases hc : (b.getW r).widget.config1 kv.1 kv.2 with
    | some w => exact getW_modify_ne b _ hne
    | none => rfl

/-- Characterisation of `place_widget` when a type is armed and known:
one fresh widget is appended and a create action pushed. -/
theorem place_widget_spec (b : Builder) (t : String) (px py : Int) (w0 : TkWidget)
    (ha : b.active_widget = some t) (hm : makeWidget t = some w0) :
    b.place_widget px py =
      { arena := b.arena ++ [newDW t px py],
        widgets := b.widgets ++ [b.arena.length],
        active_widget := none,
        undo_stack := Action.create b.arena.length :: b.undo_stack,
        redo_stack := [] } := by
  simp [Builder.place_widget, ha, hm, Builder.push_undo, newDW]

/-- Full characterisation of `load_widget` on a record of known type:
one widget is appended, its state is `loadedDW wd`, a create action is
pushed, the redo stack is cleared. -/
theorem load_widget_spec (b : Builder) (wd : SavedWidget) (w0 : TkWidget)
    (hm : makeWidget wd.wtype = some w0) :
    b.load_widget wd =
      { arena := b.arena ++ [loadedDW wd],
        widgets := b.widgets ++ [b.arena.length],
        active_widget := none,
        undo_stack := Action.create b.arena.length :: b.undo_stack,
        redo_stack := [] } := by
  simp only [Builder.load_widget]
  rw [place_widget_spec { b with active_widget := some wd.wtype } wd.wtype wd.x wd.y w0 rfl hm]
  rw [List.getLast?_concat]
  dsimp only
  rw [applyPropB_foldl _ _ _ (by simp)]
  have hget :
      ({ arena := b.arena ++ [newDW wd.wtype wd.x wd.y],
         widgets := b.widgets ++ [b.arena.length],
         active_widget := none,
         undo_stack := Action.create b.arena.length :: b.undo_stack,
         redo_stack := [] } : Builder).getW b.arena.length = newDW wd.wtype wd.x wd.y := by
    show (b.arena ++ [newDW wd.wtype wd.x wd.y]).getD b.arena.length dummyDW = _
    exact getD_append_len _ _ _
  rw [hget]
  show ({ arena := (b.arena ++ [newDW wd.wtype wd.x wd.y]).set b.arena.length
            (applyConfigs (newDW wd.wtype wd.x wd.y) wd.properties),
          widgets := b.widgets ++ [b.arena.length],
          active_widget := none,
          undo_stack := Action.create b.arena.length :: b.undo_stack,
          redo_stack := [] } : Builder) = _
  rw [set_append_len]
  rfl

/-- `load_widget` on an unknown type: nothing is appended and no
history entry is pushed (only the armed type, and possibly the options
of the previous last widget, change). -/
theorem load_widget_unknown_fields (b : Builder) (wd : SavedWidget)
    (hm : makeWidget wd.wtype = none) :
    (b.load_widget wd).widgets = b.widgets ∧
    (b.load_widget wd).undo_stack = b.undo_stack ∧
    (b.load_widget wd).redo_stack = b.redo_stack ∧
    (b.load_widget wd).arena.length = b.arena.length := by
  simp only [Builder.load_widget, Builder.place_widget, hm]
  cases hl : b.widgets.getLast? with
  | none => exact ⟨rfl, rfl, rfl, rfl⟩
  | some rt =>
    have hf := propsFold_fields wd.properties rt { b with active_widget := some wd.wtype }
    exact ⟨hf.1, hf.2.1, hf.2.2.1, hf.2.2.2.2⟩

/-- A single load step leaves every arena entry below `N` untouched,
provided every live reference is at least `N`. -/
theorem load_widget_getW_low (b : Builder) (wd : SavedWidget) (N : Nat)
    (hN : N ≤ b.arena.length) (hw : ∀ r' ∈ b.widgets, N ≤ r') (r : Nat) (hr : r < N) :
    (b.load_widget wd).getW r = b.getW r ∧
    N ≤ (b.load_widget wd).arena.length ∧
    (∀ r' ∈ (b.load_widget wd).widgets, N ≤ r') := by
  cases hm : makeWidget wd.wtype with
  | some w0 =>
    rw [load_widget_spec b wd w0 hm]
    refine ⟨?_, ?_, ?_⟩
    · show (b.arena ++ [loadedDW wd]).getD r dummyDW = b.arena.getD r dummyDW
      exact List.getD_append _ _ _ _ (Nat.lt_of_lt_of_le hr hN)
    · simp only [List.length_append]
      omega
    · intro r' hr'
      simp only [List.mem_append, List.mem_singleton] at hr'
      rcases hr' with h' | h'
      · exact hw r' h'
      · omega
  | none =>
    simp only [Builder.load_widget, Builder.place_widget, hm]
    cases hl : b.widgets.getLast? with
    | none => exact ⟨rfl, le_of_le_of_eq hN rfl, hw⟩
    | some rt =>
      have hrt : N ≤ rt := hw rt (List.mem_of_getLast?_eq_some hl)
      have hne : rt ≠ r := by omega
      have hf := propsFold_fields wd.properties rt { b with active_widget := some wd.wtype }
      refine ⟨propsFold_getW_ne _ _ _ _ hne, ?_, ?_⟩
      · rw [hf.2.2.2.2]
        exact hN
      · rw [hf.1]
        exact hw

/-- The whole loading loop leaves every arena entry below `N`
untouched. -/
theorem loadAll_getW_low (ws : List SavedWidget) (acc : Builder) (N : Nat)
    (hN : N ≤ acc.arena.length) (hw : ∀ r' ∈ acc.widgets, N ≤ r') (r : Nat) (hr : r < N) :
    (ws.foldl Builder.load_widget acc).getW r = acc.getW r := by
  induction ws generalizing acc with
  | nil => rfl
  | cons wd rest ih =>
    rw [List.foldl_cons]
    obtain ⟨h1, h2, h3⟩ := load_widget_getW_low acc wd N hN hw r hr
    exact (ih (acc.load_widget wd) h2 h3).trans h1

theorem load_widget_stats (b : Builder) (wd : SavedWidget) :
    (b.load_widget wd).widgets.length =
      b.widgets.length + (if (makeWidget wd.wtype).isSome then 1 else 0) ∧
    (b.load_widget wd).undo_stack.length =
      b.undo_stack.length + (if (makeWidget wd.wtype).isSome then 1 else 0) ∧
    ((b.load_widget wd).redo_stack = b.redo_stack ∨ (b.load_widget wd).redo_stack = []) := by
  cases hm : makeWidget wd.wtype with
  | some w0 =>
    rw [load_widget_spec b wd w0 hm]
    refine ⟨by simp, by simp, Or.inr rfl⟩
  | none =>
    obtain ⟨h1, h2, h3, _⟩ := load_widget_unknown_fields b wd hm
    refine ⟨by simp [h1], by simp [h2], Or.inl h3⟩

theorem loadAll_stats (ws : List SavedWidget) (acc : Builder) :
    (ws.foldl Builder.load_widget acc).widgets.length =
      acc.widgets.length + ws.countP (fun wd => (makeWidget wd.wtype).isSome) ∧
    (ws.foldl Builder.load_widget acc).undo_stack.length =
      acc.undo_stack.length + ws.countP (fun wd => (makeWidget wd.wtype).isSome) ∧
    ((ws.foldl Builder.load_widget acc).redo_stack = acc.redo_stack ∨
      (ws.foldl Builder.load_widget acc).redo_stack = []) := by
  induction ws generalizing acc with
  | nil => simp
  | cons wd rest ih =>
    rw [List.foldl_cons]
    obtain ⟨s1, s2, s3⟩ := load_widget_stats acc wd
    obtain ⟨t1, t2, t3⟩ := ih (acc.load_widget wd)
    refine ⟨?_, ?_, ?_⟩
    · rw [t1, s1, List.countP_cons]
      omega
    · rw [t2, s2, List.countP_cons]
      omega
    · rcases t3 with t3 | t3
      · rcases s3 with s3 | s3
        · exact Or.inl (t3.trans s3)
        · exact Or.inr (t3.trans s3)
      · exact Or.inr t3

/-- The loading loop on records of known types appends exactly the
reconstructed widgets, in file order. -/
theorem loadAll_map_getW (ws : List SavedWidget) (acc : Builder)
    (hrec : ∀ wd ∈ ws, (makeWidget wd.wtype).isSome = true)
    (hin : ∀ r ∈ acc.widgets, r < acc.arena.length) :
    (ws.foldl Builder.load_widget acc).widgets.map (ws.foldl Builder.load_widget acc).getW
      = acc.widgets.map acc.getW ++ ws.map loadedDW := by
  induction ws generalizing acc with
  | nil => simp
  | cons wd rest ih =>
    obtain ⟨w0, hw0⟩ := Option.isSome_iff_exists.mp (hrec wd (List.mem_cons_self _ _))
    rw [List.foldl_cons, load_widget_spec acc wd w0 hw0]
    set acc' : Builder :=
      { arena := acc.arena ++ [loadedDW wd],
        widgets := acc.widgets ++ [acc.arena.length],
        active_widget := none,
        undo_stack := Action.create acc.arena.length :: acc.undo_stack,
        redo_stack := [] } with hacc'
    have hin' : ∀ r ∈ acc'.widgets, r < acc'.arena.length := by
      intro r hr
      rw [hacc'] at hr ⊢
      simp only [List.mem_append, List.mem_singleton] at hr
      simp only [List.length_append, List.length_cons, List.length_nil]
      rcases hr with h' | h'
      · have := hin r h'
        omega
      · omega
    rw [ih acc' (fun wd' h' => hrec wd' (List.mem_cons_of_mem _ h')) hin']
    have hmapped : acc'.widgets.map acc'.getW = acc.widgets.map acc.getW ++ [loadedDW wd] := by
      rw [hacc']
      dsimp only
      rw [List.map_append]
      congr 1
      · apply List.map_congr_left
        intro r hr
        show (acc.arena ++ [loadedDW wd]).getD r dummyDW = acc.arena.getD r dummyDW
        exact List.getD_append _ _ _ _ (hin r hr)
      · simp only [List.map_cons, List.map_nil]
        congr 1
        show (acc.arena ++ [loadedDW wd]).getD acc.arena.length dummyDW = _
        exact getD_append_len _ _ _
    rw [hmapped, List.append_assoc]
    rfl

theorem destroy_fold_preserves_dead (l : List Nat) (acc : Builder) (r : Nat)
    (hd : ((acc.getW r).widget).alive = false) :
    (((l.foldl (fun a rr => a.arenaModify rr destroyDW) acc).getW r).widget).alive = false := by
  induction l generalizing acc with
  | nil => exact hd
  | cons a t ih =>
    rw [List.foldl_cons]
    apply ih
    by_cases hra : a = r
    · subst hra
      rcases Nat.lt_or_ge a acc.arena.length with hlt | hge
      · rw [getW_modify_self _ _ _ hlt]
        rfl
      · rw [arenaModify_oob _ _ _ hge]
        exact hd
    · rw [getW_modify_ne _ _ hra]
      exact hd

theorem destroy_fold_length (l : List Nat) (acc : Builder) :
    (l.foldl (fun a rr => a.arenaModify rr destroyDW) acc).arena.length = acc.arena.length := by
  induction l generalizing acc with
  | nil => rfl
  | cons a t ih =>
    rw [List.foldl_cons]
    rw [ih (acc.arenaModify a destroyDW)]
    simp

theorem destroy_fold_hits (l : List Nat) (acc : Builder) (r : Nat) (hr : r ∈ l)
    (hlt : r < acc.arena.length) :
    (((l.foldl (fun a rr => a.arenaModify rr destroyDW) acc).getW r).widget).alive = false := by
  induction l generalizing acc with
  | nil => cases hr
  | cons a t ih =>
    rw [List.foldl_cons]
    by_cases hmem : r ∈ t
    · exact ih _ hmem (by simpa using hlt)
    · have ha : a = r := by
        rcases List.mem_cons.mp hr with h' | h'
        · exact h'.symm
        · exact absurd h' hmem
      subst ha
      apply destroy_fold_preserves_dead
      rw [getW_modify_self _ _ _ hlt]
      rfl

theorem clear_canvas_length (b : Builder) :
    (b.clear_canvas).arena.length = b.arena.length :=
  destroy_fold_length b.widgets b

theorem clear_canvas_dead (b : Builder) (r : Nat) (hr : r ∈ b.widgets)
    (hlt : r < b.arena.length) :
    ((b.clear_canvas).getW r).widget.alive = false :=
  destroy_fold_hits b.widgets b r hr hlt

/-- C3 (amended): loading a parsed document does not abort on unknown
widget types and does not preserve the previous document: the result
holds exactly one widget per entry of known type (unknown entries are
silently skipped), and every widget of the previously open document has
been destroyed. -/
theorem C3_amended_unknown_type_skipped (b : Builder) (ws : List SavedWidget)
    (h : ∀ r ∈ b.widgets, r < b.arena.length) :
    (b.open_project ws).widgets.length =
      ws.countP (fun wd => (makeWidget wd.wtype).isSome) ∧
    ∀ r ∈ b.widgets, ((b.open_project ws).getW r).widget.alive = false := by
  have hop : b.open_project ws = ws.foldl Builder.load_widget b.clear_canvas := rfl
  constructor
  · rw [hop, (loadAll_stats ws b.clear_canvas).1,
      show b.clear_canvas.widgets.length = 0 from rfl]
    exact Nat.zero_add _
  · intro r hr
    rw [hop]
    rw [loadAll_getW_low ws b.clear_canvas b.arena.length
      (le_of_eq (clear_canvas_length b).symm) (fun r' hr' => absurd hr' (by simp [Builder.clear_canvas]))
      r (h r hr)]
    exact clear_canvas_dead b r hr (h r hr)

/-- Witness for C3 (amended) at the concrete bad-load scenario. -/
theorem C3_amended_witness :
    (priorDoc.open_project [⟨"Bogus", 10, 10, []⟩]).widgets.length =
      List.countP (fun wd => (makeWidget wd.wtype).isSome)
        ([⟨"Bogus", 10, 10, []⟩] : List SavedWidget) ∧
    ((priorDoc.open_project [⟨"Bogus", 10, 10, []⟩]).getW 0).widget.alive = false :=
  ⟨(C3_amended_unknown_type_skipped priorDoc [⟨"Bogus", 10, 10, []⟩] (by decide)).1,
   (C3_amended_unknown_type_skipped priorDoc [⟨"Bogus", 10, 10, []⟩] (by decide)).2
     0 (by decide)⟩

/-- C10 (amended): `new_project`/`clear_canvas` empty both history
stacks — undo and redo right afterwards are no-ops — while a successful
`open_project` leaves the redo stack empty but puts one create entry
per loaded widget of known type on the undo stack. -/
theorem C10_amended_history_after_new_and_load (b : Builder) (ws : List SavedWidget) :
    (b.clear_canvas).undo_stack = [] ∧
    (b.clear_canvas).redo_stack = [] ∧
    (b.clear_canvas).undo = (b.clear_canvas, none) ∧
    (b.clear_canvas).redo = (b.clear_canvas, none) ∧
    (b.open_project ws).undo_stack.length =
      ws.countP (fun wd => (makeWidget wd.wtype).isSome) ∧
    (b.open_project ws).redo_stack = [] := by
  have hop : b.open_project ws = ws.foldl Builder.load_widget b.clear_canvas := rfl
  refine ⟨rfl, rfl, rfl, rfl, ?_, ?_⟩
  · rw [hop, (loadAll_stats ws b.clear_canvas).2.1,
      show b.clear_canvas.undo_stack.length = 0 from rfl]
    exact Nat.zero_add _
  · rw [hop]
    rcases (loadAll_stats ws b.clear_canvas).2.2 with h' | h'
    · exact h'
    · exact h'

theorem makeWidget_alive (t : String) (w : TkWidget) (hm : makeWidget t = some w) :
    w.alive = true := by
  unfold makeWidget at hm
  by_cases h1 : t = "Button"
  · rw [if_pos h1] at hm
    injection hm with hm
    subst hm
    rfl
  rw [if_neg h1] at hm
  by_cases h2 : t = "Label"
  · rw [if_pos h2] at hm
    injection hm with hm
    subst hm
    rfl
  rw [if_neg h2] at hm
  by_cases h3 : t = "Entry"
  · rw [if_pos h3] at hm
    injection hm with hm
    subst hm
    rfl
  rw [if_neg h3] at hm
  by_cases h4 : t = "Text"
  · rw [if_pos h4] at hm
    injection hm with hm
    subst hm
    rfl
  rw [if_neg h4] at hm
  by_cases h5 : t = "Checkbutton"
  · rw [if_pos h5] at hm
    injection hm with hm
    subst hm
    rfl
  rw [if_neg h5] at hm
  by_cases h6 : t = "Radiobutton"
  · rw [if_pos h6] at hm
    injection hm with hm
    subst hm
    rfl
  rw [if_neg h6] at hm
  by_cases h7 : t = "Scale"
  · rw [if_pos h7] at hm
    injection hm with hm
    subst hm
    rfl
  rw [if_neg h7] at hm
  by_cases h8 : t = "Listbox"
  · rw [if_pos h8] at hm
    injection hm with hm
    subst hm
    rfl
  rw [if_neg h8] at hm
  by_cases h9 : t = "Scrollbar"
  · rw [if_pos h9] at hm
    injection hm with hm
    subst hm
    rfl
  rw [if_neg h9] at hm
  by_cases h10 : t = "Frame"
  · rw [if_pos h10] at hm
    injection hm with hm
    subst hm
    rfl
  rw [if_neg h10] at hm
  by_cases h11 : t = "LabelFrame"
  · rw [if_pos h11] at hm
    injection hm with hm
    subst hm
    rfl
  rw [if_neg h11] at hm
  by_cases h12 : t = "Combobox"
  · rw [if_pos h12] at hm
    injection hm with hm
    subst hm
    rfl
  rw [if_neg h12] at hm
  by_cases h13 : t = "Progressbar"
  · rw [if_pos h13] at hm
    injection hm with hm
    subst hm
    rfl
  rw [if_neg h13] at hm
  exact Option.noConfusion hm

/-- After replaying the saved property list, a key whose save-time
`keys()` check passed reads back the saved value: the entry for it is
applied successfully and no later entry overwrites it. -/
theorem roundtrip_key (dw : DW) (w0 : TkWidget) (hm : makeWidget dw.widget_type = some w0)
    (hvkeys : dw.widget.validKeys = w0.validKeys)
    (Ppre Ppost : List (String × String)) (ck k : String)
    (hkk : normKey ck = normKey k)
    (hall : ∀ kv ∈ Ppost, normKey kv.1 ≠ normKey k)
    (hcont : dw.widget.validKeys.contains (normKey k) = true) :
    (applyConfigs (newDW dw.widget_type dw.x dw.y)
        (Ppre ++ (ck, dw.widget.cget k) :: Ppost)).widget.cget k
      = dw.widget.cget k := by
  have hd0w : (newDW dw.widget_type dw.x dw.y).widget = w0 := by
    show (makeWidget dw.widget_type).getD dummyTk = w0
    rw [hm]
    rfl
  have hclass := applyConfigs_class Ppre (newDW dw.widget_type dw.x dw.y)
  have halive2 : (applyConfigs (newDW dw.widget_type dw.x dw.y) Ppre).widget.alive = true := by
    rw [hclass.2.1, hd0w]
    exact makeWidget_alive _ _ hm
  have hvk2 : (applyConfigs (newDW dw.widget_type dw.x dw.y) Ppre).widget.validKeys.contains
      (normKey ck) = true := by
    rw [hclass.1, hd0w, ← hvkeys, hkk]
    exact hcont
  have hsplit : applyConfigs (newDW dw.widget_type dw.x dw.y)
        (Ppre ++ (ck, dw.widget.cget k) :: Ppost)
      = applyConfigs (applyProp1 (applyConfigs (newDW dw.widget_type dw.x dw.y) Ppre)
          (ck, dw.widget.cget k)) Ppost := by
    unfold applyConfigs
    rw [List.foldl_append, List.foldl_cons]
  rw [hsplit, applyConfigs_cget_skip Ppost _ k hall]
  exact applyProp1_cget_self _ ck _ k hkk halive2 hvk2

/-- One-widget round trip: for a well-formed, grid-aligned widget, the
reconstruction keeps type and position, and every one of the five
serialized keys whose save-time `keys()` check passed keeps its
value. -/
theorem roundtrip_one (dw : DW) (hwf : dw.wf) (hx : dw.x % GRID_SIZE = 0)
    (hy : dw.y % GRID_SIZE = 0) :
    (loadedDW (saveWidget dw)).widget_type = dw.widget_type ∧
    (loadedDW (saveWidget dw)).x = dw.x ∧
    (loadedDW (saveWidget dw)).y = dw.y ∧
    ∀ k ∈ savedKeys, dw.widget.hasKey k = true →
      (loadedDW (saveWidget dw)).widget.cget k = dw.widget.cget k := by
  obtain ⟨w0, hm, hvkeys, htk, halive⟩ := hwf
  refine ⟨?_, ?_, ?_, ?_⟩
  · exact (applyConfigs_fields _ _).1
  · refine ((applyConfigs_fields _ _).2.1).trans ?_
    show snap dw.x = dw.x
    exact snap_of_emod_eq_zero hx
  · refine ((applyConfigs_fields _ _).2.2).trans ?_
    show snap dw.y = dw.y
    exact snap_of_emod_eq_zero hy
  · intro k hk hhas
    have hcont : dw.widget.validKeys.contains (normKey k) = true := by
      have h' := hhas
      unfold TkWidget.hasKey at h'
      rw [Bool.and_eq_true] at h'
      exact h'.1
    have hval : ∀ k', k' = k → savedVal dw k' = dw.widget.cget k := by
      intro k' hk'
      subst hk'
      unfold savedVal
      rw [if_pos hhas]
    simp only [savedKeys, List.mem_cons, List.not_mem_nil, or_false] at hk
    rcases hk with rfl | rfl | rfl | rfl | rfl
    · show (applyConfigs (newDW dw.widget_type dw.x dw.y)
          [("text", savedVal dw "text"), ("width", savedVal dw "width"),
           ("height", savedVal dw "height"), ("background", savedVal dw "bg"),
           ("foreground", savedVal dw "fg")]).widget.cget "text" = dw.widget.cget "text"
      rw [hval "text" rfl]
      refine roundtrip_key dw w0 hm hvkeys [] _ "text" "text" (by decide) ?_ hcont
      intro kv hkv
      simp only [List.mem_cons, List.not_mem_nil, or_false] at hkv
      rcases hkv with rfl | rfl | rfl | rfl <;> (dsimp only; decide)
    · show (applyConfigs (newDW dw.widget_type dw.x dw.y)
          [("text", savedVal dw "text"), ("width", savedVal dw "width"),
           ("height", savedVal dw "height"), ("background", savedVal dw "bg"),
           ("foreground", savedVal dw "fg")]).widget.cget "width" = dw.widget.cget "width"
      rw [hval "width" rfl]
      refine roundtrip_key dw w0 hm hvkeys [("text", savedVal dw "text")] _
        "width" "width" (by decide) ?_ hcont
      intro kv hkv
      simp only [List.mem_cons, List.not_mem_nil, or_false] at hkv
      rcases hkv with rfl | rfl | rfl <;> (dsimp only; decide)
    · show (applyConfigs (newDW dw.widget_type dw.x dw.y)
          [("text", savedVal dw "text"), ("width", savedVal dw "width"),
           ("height", savedVal dw "height"), ("background", savedVal dw "bg"),
           ("foreground", savedVal dw "fg")]).widget.cget "height" = dw.widget.cget "height"
      rw [hval "height" rfl]
      refine roundtrip_key dw w0 hm hvkeys
        [("text", savedVal dw "text"), ("width", savedVal dw "width")] _
        "height" "height" (by decide) ?_ hcont
      intro kv hkv
      simp only [List.mem_cons, List.not_mem_nil, or_false] at hkv
      rcases hkv with rfl | rfl <;> (dsimp only; decide)
    · show (applyConfigs (newDW dw.widget_type dw.x dw.y)
          [("text", savedVal dw "text"), ("width", savedVal dw "width"),
           ("height", savedVal dw "height"), ("background", savedVal dw "bg"),
           ("foreground", savedVal dw "fg")]).widget.cget "bg" = dw.widget.cget "bg"
      rw [hval "bg" rfl]
      refine roundtrip_key dw w0 hm hvkeys
        [("text", savedVal dw "text"), ("width", savedVal dw "width"),
         ("height", savedVal dw "height")] _
        "background" "bg" (by decide) ?_ hcont
      intro kv hkv
      simp only [List.mem_cons, List.not_mem_nil, or_false] at hkv
      rcases hkv with rfl
      dsimp only
      decide
    · show (applyConfigs (newDW dw.widget_type dw.x dw.y)
          [("text", savedVal dw "text"), ("width", savedVal dw "width"),
           ("height", savedVal dw "height"), ("background", savedVal dw "bg"),
           ("foreground", savedVal dw "fg")]).widget.cget "fg" = dw.widget.cget "fg"
      rw [hval "fg" rfl]
      refine roundtrip_key dw w0 hm hvkeys
        [("text", savedVal dw "text"), ("width", savedVal dw "width"),
         ("height", savedVal dw "height"), ("background", savedVal dw "bg")] _
        "foreground" "fg" (by decide) ?_ hcont
      intro kv hkv
      exact absurd hkv (List.not_mem_nil kv)

/-- C8 (amended): saving a document whose widgets are well formed and
grid-aligned and loading the result into a fresh builder reconstructs
the same number of widgets in the same z-order; pairing the
reconstructed widgets with the originals in order, types and positions
agree, and each of the five serialized property keys whose save-time
`keys()` check passed reads back unchanged. -/
theorem C8_amended_roundtrip (b : Builder)
    (h : ∀ r ∈ b.widgets, r < b.arena.length ∧ (b.getW r).wf ∧
      (b.getW r).x % GRID_SIZE = 0 ∧ (b.getW r).y % GRID_SIZE = 0) :
    (emptyBuilder.open_project b.save_data).widgets.length = b.widgets.length ∧
    ∀ p ∈ ((emptyBuilder.open_project b.save_data).widgets.map
          (emptyBuilder.open_project b.save_data).getW).zip (b.widgets.map b.getW),
      p.1.widget_type = p.2.widget_type ∧ p.1.x = p.2.x ∧ p.1.y = p.2.y ∧
      ∀ k ∈ savedKeys, p.2.widget.hasKey k = true →
        p.1.widget.cget k = p.2.widget.cget k := by
  have hrec : ∀ wd ∈ b.save_data, (makeWidget wd.wtype).isSome = true := by
    intro wd hwd
    unfold Builder.save_data at hwd
    obtain ⟨r, hr, heq⟩ := List.mem_map.mp hwd
    obtain ⟨w0, hm, -, -, -⟩ := (h r hr).2.1
    rw [← heq]
    show (makeWidget (b.getW r).widget_type).isSome = true
    rw [hm]
    rfl
  have hopen : emptyBuilder.open_project b.save_data
      = b.save_data.foldl Builder.load_widget emptyBuilder := rfl
  have hmap := loadAll_map_getW b.save_data emptyBuilder hrec (by intro r hr; cases hr)
  have hmap2 : (emptyBuilder.open_project b.save_data).widgets.map
        (emptyBuilder.open_project b.save_data).getW
      = b.widgets.map (fun r => loadedDW (saveWidget (b.getW r))) := by
    rw [hopen, hmap]
    show b.save_data.map loadedDW = _
    unfold Builder.save_data
    rw [List.map_map]
    rfl
  constructor
  · have hlen := congrArg List.length hmap2
    simp only [List.length_map] at hlen
    exact hlen
  · intro p hp
    rw [hmap2, List.zip_map'] at hp
    obtain ⟨r, hr, hpe⟩ := List.mem_map.mp hp
    obtain ⟨hlt, hwf, hx, hy⟩ := h r hr
    have hone := roundtrip_one (b.getW r) hwf hx hy
    rw [← hpe]
    exact hone

/-- Witness for C8 (amended) at the two-widget document `twoDoc`
(Button at (0,0), Label at (40,40)). -/
theorem C8_amended_witness :
    (emptyBuilder.open_project twoDoc.save_data).widgets.length = twoDoc.widgets.length :=
  (C8_amended_roundtrip twoDoc (by
    intro r hr
    have e : twoDoc.widgets = [0, 1] := by decide
    rw [e] at hr
    have h01 : r = 0 ∨ r = 1 := by simpa using hr
    rcases h01 with rfl | rfl
    · exact ⟨by decide,
        ⟨ttkW ["text", "width", "command"] [("text", "Button")],
          by decide, by decide, by decide, by decide⟩,
        by decide, by decide⟩
    · exact ⟨by decide,
        ⟨ttkW ["text", "width", "background", "foreground", "font"] [("text", "Label")],
          by decide, by decide, by decide, by decide⟩,
        by decide, by decide⟩)).1

end LUL
